import Mathlib

/-!
# Verification of the RAG pipeline orchestration layer

A shallow embedding, in Lean 4, of the pipeline orchestration code of the
HybridRAG repository (Admin_Backend/main.py, User_Backend/main.py,
Users_Backend/main.py, Chunk_Function/main.py), together with theorems that
settle the frozen claims about that code.

Modelling conventions:
* Python JSON-like values (`Any` holding decoded JSON) are modelled by the
  inductive type `JVal` (numeric content is irrelevant to every claim, so
  numbers are carried as `Int`).
* Remote collaborators (HTTP services, Redis, GCS, Pub/Sub) are oracles:
  function-typed parameters returning `Except` values, one per call site,
  matching the Python signature of the wrapper that performs the call.
  A raised Python exception is `Except.error`, carrying `str(e)`.
* The retry decorator `retry_on_exception` is modelled separately
  (`RetryM` namespace); at pipeline level each decorated call collapses
  to the single `Except` outcome that the wrapped call eventually produces.
* Library calls of Python itself that are external to the repository
  (`unicodedata.normalize`, `hashlib.sha256`, `json.loads`) are passed as
  explicit function parameters.
-/

/-! ## JSON-like values (decoded Python payloads) -/

inductive JVal where
  | null : JVal
  | bool (b : Bool) : JVal
  | num (n : Int) : JVal
  | str (s : String) : JVal
  | arr (xs : List JVal) : JVal
  | obj (kvs : List (String × JVal)) : JVal
deriving Inhabited

/-- `d[k]` lookup for the first matching key of a decoded JSON object. -/
def jlookup (kvs : List (String × JVal)) (k : String) : Option JVal :=
  match kvs with
  | [] => none
  | (k2, v) :: rest => if k2 = k then some v else jlookup rest k

/-- Python `d.get(k)`: `some v` when the key is present, `none` otherwise
(only meaningful on objects; any other value yields `none`). -/
def jget (v : JVal) (k : String) : Option JVal :=
  match v with
  | .obj kvs => jlookup kvs k
  | _ => none

/-- Python `d.get(k)` with the absent case collapsed to `None`,
modelled as `JVal.null`. -/
def jgetD (v : JVal) (k : String) : JVal :=
  (jget v k).getD .null

/-- Python truthiness of a decoded JSON value: `None`, `False`, `0`, `""`,
`[]` and `{}` are falsy, everything else truthy. -/
def pyTruthy : JVal → Bool
  | .null => false
  | .bool b => b
  | .num n => n != 0
  | .str s => s != ""
  | .arr xs => !xs.isEmpty
  | .obj kvs => !kvs.isEmpty

/-- Python `a or b` on decoded JSON values: `a` when truthy, else `b`. -/
def pyOrJ (a b : JVal) : JVal :=
  if pyTruthy a then a else b

mutual

/-- `json.dumps(v, ensure_ascii=False)` on a decoded JSON value (string
escaping is not modelled; no claim inspects escapes). It never fails on
`JVal` inputs, so it also models `safe_json_dumps`. -/
def pyJsonDumps : JVal → String
  | .null => "null"
  | .bool b => if b then "true" else "false"
  | .num n => toString n
  | .str s => "\"" ++ s ++ "\""
  | .arr xs => "[" ++ String.intercalate ", " (pyJsonDumpsList xs) ++ "]"
  | .obj kvs => "\x7b" ++ String.intercalate ", " (pyJsonDumpsObj kvs) ++ "\x7d"

def pyJsonDumpsList : List JVal → List String
  | [] => []
  | v :: vs => pyJsonDumps v :: pyJsonDumpsList vs

def pyJsonDumpsObj : List (String × JVal) → List String
  | [] => []
  | (k, v) :: kvs => ("\"" ++ k ++ "\": " ++ pyJsonDumps v) :: pyJsonDumpsObj kvs

end

mutual

/-- Python `repr` of a decoded JSON value (`str` falls back to this for
non-string values; dict/list display). -/
def pyRepr : JVal → String
  | .null => "None"
  | .bool b => if b then "True" else "False"
  | .num n => toString n
  | .str s => "\x27" ++ s ++ "\x27"
  | .arr xs => "[" ++ String.intercalate ", " (pyReprList xs) ++ "]"
  | .obj kvs => "\x7b" ++ String.intercalate ", " (pyReprObj kvs) ++ "\x7d"

def pyReprList : List JVal → List String
  | [] => []
  | v :: vs => pyRepr v :: pyReprList vs

def pyReprObj : List (String × JVal) → List String
  | [] => []
  | (k, v) :: kvs => ("\x27" ++ k ++ "\x27" ++ ": " ++ pyRepr v) :: pyReprObj kvs

end

/-- Python `str(v)` on a decoded JSON value: a string is returned verbatim,
anything else via `repr`. -/
def pyStr : JVal → String
  | .str s => s
  | v => pyRepr v

/-- Is the value a Python `str`? -/
def JVal.isStr : JVal → Bool
  | .str _ => true
  | _ => false

/-! ## RetryExecutor — `retry_on_exception` (Admin_Backend/main.py lines
58–75; the User_Backend copy at lines 90–106 is identical).

The Python loop runs `attempt = 1 .. max_retries`, calls `fn` once per
iteration, returns immediately on success, remembers the exception on
failure, and after the loop raises the remembered exception (`None` when
the loop body never ran, i.e. `max_retries = 0`).  The operation is
modelled as `op : Nat → Except E A`, giving the outcome of its `k`-th
invocation; the sleeps between attempts do not affect the outcome. -/

namespace RetryM

/-- Outcome of the decorated call: the value returned or the exception
raised (`Except.error none` models Python raising `None` when the loop
body never executed), plus how many times the operation was invoked. -/
structure RetryResult (E A : Type) where
  result : Except (Option E) A
  calls : Nat

/-- The retry loop: `rem` iterations remain, the next invocation is
numbered `attempt`, `last` is the remembered exception, `calls` counts
invocations made so far. -/
def retryAux {E A : Type} (op : Nat → Except E A) :
    Nat → Nat → Option E → Nat → RetryResult E A
  | 0, _, last, calls => ⟨.error last, calls⟩
  | rem + 1, attempt, _, calls =>
    match op attempt with
    | .ok a => ⟨.ok a, calls + 1⟩
    | .error e => retryAux op rem (attempt + 1) (some e) (calls + 1)

/-- `retry_on_exception(max_retries, backoff_base)` applied to `op`:
the loop starts at attempt 1 with no remembered exception. -/
def retry_on_exception {E A : Type} (max_retries : Nat) (op : Nat → Except E A) :
    RetryResult E A :=
  retryAux op max_retries 1 none 0

/-- Helper: does an `Except` hold an error? -/
def isErr {E A : Type} : Except E A → Bool
  | .error _ => true
  | .ok _ => false

theorem retryAux_calls_le {E A : Type} (op : Nat → Except E A) :
    ∀ rem attempt last calls,
      (retryAux op rem attempt last calls).calls ≤ calls + rem := by
  intro rem
  induction rem with
  | zero => intro attempt last calls; simp [retryAux]
  | succ n ih =>
    intro attempt last calls
    cases h : op attempt with
    | ok a => simp only [retryAux, h]; omega
    | error e =>
      simp only [retryAux, h]
      have := ih (attempt + 1) (some e) (calls + 1)
      omega

theorem retryAux_first_success {E A : Type} (op : Nat → Except E A) :
    ∀ rem attempt last calls k a,
      attempt ≤ k → k < attempt + rem →
      (∀ j, attempt ≤ j → j < k → isErr (op j) = true) →
      op k = .ok a →
      retryAux op rem attempt last calls = ⟨.ok a, calls + (k - attempt) + 1⟩ := by
  intro rem
  induction rem with
  | zero => intro attempt last calls k a h1 h2; omega
  | succ n ih =>
    intro attempt last calls k a h1 h2 hfail hok
    rcases Nat.eq_or_lt_of_le h1 with heq | hlt
    · subst heq
      simp [retryAux, hok]
    · have hf : isErr (op attempt) = true := hfail attempt le_rfl hlt
      cases h : op attempt with
      | ok a2 => rw [h] at hf; simp [isErr] at hf
      | error e =>
        have hrec := ih (attempt + 1) (some e) (calls + 1) k a hlt (by omega)
          (fun j hj1 hj2 => hfail j (by omega) hj2) hok
        simp only [retryAux, h, hrec]
        congr 1
        omega

theorem retryAux_all_fail {E A : Type} (op : Nat → Except E A) :
    ∀ rem attempt last calls,
      1 ≤ rem →
      (∀ j, attempt ≤ j → j < attempt + rem → isErr (op j) = true) →
      ∃ e, op (attempt + rem - 1) = .error e ∧
        retryAux op rem attempt last calls = ⟨.error (some e), calls + rem⟩ := by
  intro rem
  induction rem with
  | zero => intro attempt last calls h; omega
  | succ n ih =>
    intro attempt last calls _ hfail
    have hf := hfail attempt le_rfl (by omega)
    cases h : op attempt with
    | ok a => rw [h] at hf; simp [isErr] at hf
    | error e =>
      rcases Nat.eq_zero_or_pos n with hn | hn
      · subst hn
        exact ⟨e, by simpa using h, by simp [retryAux, h]⟩
      · obtain ⟨e2, he2, hrec⟩ := ih (attempt + 1) (some e) (calls + 1) hn
          (fun j hj1 hj2 => hfail j (by omega) (by omega))
        refine ⟨e2, ?_, ?_⟩
        · have harith : attempt + 1 + n - 1 = attempt + (n + 1) - 1 := by omega
          rwa [harith] at he2
        · simp only [retryAux, h, hrec]
          congr 1
          omega

/-- An operation that fails on the first two invocations and succeeds on
every later one (the spec's "fails twice then succeeds" scenario). -/
def failTwiceOp : Nat → Except String Nat :=
  fun k => if k < 3 then .error ("fail " ++ toString k) else .ok 7

/-- An operation that fails identically on every invocation. -/
def alwaysFailOp : Nat → Except String Nat :=
  fun _ => .error "boom"

/-- C3: for every operation and every configuration with `maxAttempts ≥ 1`,
`retry_on_exception` invokes the operation at most `maxAttempts` times;
if the first success is at invocation `k ≤ maxAttempts`, it returns that
success result having invoked the operation exactly `k` times; and if every
invocation fails, it raises the failure of the final invocation after
exactly `maxAttempts` invocations. -/
theorem retry_executor_contract {E A : Type} (maxAttempts : Nat)
    (op : Nat → Except E A) (hmax : 1 ≤ maxAttempts) :
    (retry_on_exception maxAttempts op).calls ≤ maxAttempts
    ∧ (∀ k a, 1 ≤ k → k ≤ maxAttempts →
        (∀ j, 1 ≤ j → j < k → isErr (op j) = true) → op k = .ok a →
        (retry_on_exception maxAttempts op).result = .ok a
        ∧ (retry_on_exception maxAttempts op).calls = k)
    ∧ ((∀ j, 1 ≤ j → j ≤ maxAttempts → isErr (op j) = true) →
        ∃ e, op maxAttempts = .error e
        ∧ (retry_on_exception maxAttempts op).result = .error (some e)
        ∧ (retry_on_exception maxAttempts op).calls = maxAttempts) := by
  refine ⟨?_, ?_, ?_⟩
  · have := retryAux_calls_le op maxAttempts 1 none 0
    simpa [retry_on_exception] using this
  · intro k a hk1 hk2 hfail hok
    have := retryAux_first_success op maxAttempts 1 none 0 k a hk1 (by omega) hfail hok
    rw [retry_on_exception, this]
    exact ⟨rfl, by show 0 + (k - 1) + 1 = k; omega⟩
  · intro hfail
    obtain ⟨e, he, hr⟩ := retryAux_all_fail op maxAttempts 1 none 0 hmax
      (fun j hj1 hj2 => hfail j hj1 (by omega))
    have harith : 1 + maxAttempts - 1 = maxAttempts := by omega
    rw [harith] at he
    refine ⟨e, he, ?_, ?_⟩
    · rw [retry_on_exception, hr]
    · rw [retry_on_exception, hr]; show 0 + maxAttempts = maxAttempts; omega

/-- Witness for C3 at `maxAttempts = 3` with `failTwiceOp` (fails on
attempts 1 and 2, succeeds on 3) and with `alwaysFailOp`. -/
theorem retry_executor_contract_witness :
    ((retry_on_exception 3 failTwiceOp).result = .ok 7
      ∧ (retry_on_exception 3 failTwiceOp).calls = 3)
    ∧ ∃ e, alwaysFailOp 3 = .error e
      ∧ (retry_on_exception 3 alwaysFailOp).result = .error (some e)
      ∧ (retry_on_exception 3 alwaysFailOp).calls = 3 := by
  constructor
  · exact (retry_executor_contract 3 failTwiceOp (by decide)).2.1 3 7 (by decide)
      (by decide)
      (fun j h1 h2 => by interval_cases j <;> rfl)
      rfl
  · exact (retry_executor_contract 3 alwaysFailOp (by decide)).2.2
      (fun j h1 h2 => rfl)

/-- C8 counterexample: the failure propagated by `retry_on_exception` is
identical under configurations with different attempt counts
(`maxAttempts = 1` vs `maxAttempts = 2` on an always-failing operation),
so the attempt count is not attached to — and not recoverable from — the
propagated failure.  The count appears only in the log line
`"Function %s failed after %s attempts"`. -/
theorem retry_no_count_attached_counterexample :
    (retry_on_exception 1 alwaysFailOp).result
        = (retry_on_exception 2 alwaysFailOp).result
    ∧ (retry_on_exception 1 alwaysFailOp).calls = 1
    ∧ (retry_on_exception 2 alwaysFailOp).calls = 2 :=
  ⟨rfl, rfl, rfl⟩

/-- C8 amended: whenever all retry attempts of an operation fail
(`maxAttempts ≥ 1`), `retry_on_exception` propagates to the caller exactly
the failure raised by the final invocation, unchanged and with no attempt
count attached; the attempt count is reported only to the logging sink. -/
theorem retry_propagates_last_failure_unchanged {E A : Type}
    (maxAttempts : Nat) (op : Nat → Except E A) (hmax : 1 ≤ maxAttempts)
    (hfail : ∀ j, 1 ≤ j → j ≤ maxAttempts → isErr (op j) = true) :
    ∃ e, op maxAttempts = .error e
      ∧ (retry_on_exception maxAttempts op).result = .error (some e) := by
  obtain ⟨e, he, hr⟩ := retryAux_all_fail op maxAttempts 1 none 0 hmax
    (fun j hj1 hj2 => hfail j hj1 (by omega))
  have harith : 1 + maxAttempts - 1 = maxAttempts := by omega
  rw [harith] at he
  exact ⟨e, he, by rw [retry_on_exception, hr]⟩

/-- Witness for the amended C8 at `maxAttempts = 2` on `alwaysFailOp`. -/
theorem retry_propagates_last_failure_unchanged_witness :
    ∃ e, alwaysFailOp 2 = .error e
      ∧ (retry_on_exception 2 alwaysFailOp).result = .error (some e) :=
  retry_propagates_last_failure_unchanged 2 alwaysFailOp (by decide)
    (fun j h1 h2 => rfl)

end RetryM

/-! ## Admin_Backend ingestion pipeline (Admin_Backend/main.py)

`process_file_job` (lines 166–180), `pubsub_endpoint` (lines 194–231),
`submit_text` (lines 234–251), `pull_callback` (lines 284–349).

Stage collaborators (`call_chunk_service`, `get_embeddings`,
`store_embeddings`, `download_from_gcs`) are retry-wrapped remote calls;
each is modelled by the `Except` outcome the wrapper eventually produces.
Vector payloads are an opaque type `V`, the store acknowledgment an opaque
type `R` (their numeric content matters to no claim). -/

namespace Admin

/-- Job status strings written into the in-memory `job_store`. -/
inductive Status where
  | accepted
  | running
  | done
  | failed
deriving DecidableEq, Inhabited

/-- One entry of an `errors` list: `{"stage": ..., "error": ...}`. -/
structure StageError where
  stage : String
  error : String
deriving DecidableEq

/-- The stage collaborators of one ingestion run, as the eventual outcome
of each retry-wrapped remote call. -/
structure Oracles (V R : Type) where
  chunkSvc : Except String (List String)
  embedSvc : List String → Except String (List V)
  storeSvc : List V → Except String R

/-- The pipeline steps that an ingestion run can invoke. -/
inductive Step where
  | download
  | chunk
  | embed
  | store
deriving DecidableEq

/-- The `details` dict written by `job_update`. -/
structure JobDetails (R : Type) where
  errors : List StageError
  acknowledged : Option Bool
  stored : Option Nat
  storeResp : Option R
  exceptionMsg : Option String

/-- `job_update(job_id, status)` with no details: `details or {}`. -/
def emptyDetails (R : Type) : JobDetails R :=
  ⟨[], none, none, none, none⟩

/-- Outcome of one `process_file_job` run: the ordered `job_update` writes
it performs for its job id, the steps it invoked, and the step at which the
exception (if any) was raised. -/
structure RunResult (R : Type) where
  updates : List (Status × JobDetails R)
  invoked : List Step
  failedStep : Option Step

/-- The two `job_update` writes of a failing run: `running`, then `failed`
with the single error entry `{"stage": "process", "error": str(exc)}`
appended by the `except` block (lines 178–180). -/
def failedRun (R : Type) (invoked : List Step) (st : Step) (cause : String) :
    RunResult R :=
  ⟨[(.running, emptyDetails R),
    (.failed, ⟨[⟨"process", cause⟩], none, none, none, some cause⟩)],
   invoked, some st⟩

/-- `process_file_job(job_id, local_path)` (lines 166–180): chunk, reject an
empty chunk list, embed, reject an empty embedding list, store; the first
raised exception aborts the run and is recorded by the `except` block;
otherwise the `done` record reports `stored = len(embeddings)`. -/
def process_file_job {V R : Type} (o : Oracles V R) : RunResult R :=
  match o.chunkSvc with
  | .error e => failedRun R [.chunk] .chunk e
  | .ok chunks =>
    if chunks.isEmpty then
      failedRun R [.chunk] .chunk "Chunk service returned empty"
    else
      match o.embedSvc chunks with
      | .error e => failedRun R [.chunk, .embed] .embed e
      | .ok embeddings =>
        if embeddings.isEmpty then
          failedRun R [.chunk, .embed] .embed "No embeddings returned"
        else
          match o.storeSvc embeddings with
          | .error e => failedRun R [.chunk, .embed, .store] .store e
          | .ok storeResp =>
            ⟨[(.running, emptyDetails R),
              (.done, ⟨[], some true, some embeddings.length, some storeResp, none⟩)],
             [.chunk, .embed, .store], none⟩

/-- Status of the run: the status of its final `job_update` write. -/
def runStatus {R : Type} (r : RunResult R) : Option Status :=
  (r.updates.getLast?).map (·.1)

/-- The ordered statuses stored in `job_store` for one job accepted by
`submit_text`: the `accepted` write of `submit_text` (line 249) followed by
the writes of the background `process_file_job` run for the same job id
(single writer per id). -/
def jobStatusTrace {V R : Type} (o : Oracles V R) : List Status :=
  .accepted :: (process_file_job o).updates.map (·.1)

/-- Is the status terminal? -/
def isTerminal : Status → Bool
  | .done => true
  | .failed => true
  | _ => false

/-- The transitions permitted by the spec's job state machine:
Accepted → Running → (Done | Failed). -/
def allowedTransition : Status → Status → Bool
  | .accepted, .running => true
  | .running, .done => true
  | .running, .failed => true
  | _, _ => false

/-- Errors recorded in the final `job_update` write of a run. -/
def terminalErrors {R : Type} (r : RunResult R) : List StageError :=
  match r.updates.getLast? with
  | some (_, d) => d.errors
  | none => []

/-- The stage collaborators of the push endpoint `pubsub_endpoint`
(lines 194–231).  `decode` covers lines 198–205: presence of
`message.data`, base64 decoding, JSON parsing and the `bucket`/`name`
lookups, all inside one `try`. -/
structure PushOracles (V R : Type) where
  decode : Except String (String × String)
  download : Except String Unit
  chunkSvc : Except String (List String)
  embedSvc : List String → Except String (List V)
  storeSvc : List V → Except String R

/-- Response of the push endpoint: an `HTTPException` with the error
entries recorded before the raise, or the success body
`{"acknowledged": ack, "errors": errors, "stored": len(embeddings)}`. -/
inductive PushOutcome where
  | httpError (status : Nat) (errors : List StageError)
  | success (acknowledged : Bool) (errors : List StageError) (stored : Nat)

/-- `pubsub_endpoint` (lines 194–231): decode (400 on failure), download
(500 on failure), then the chunk/embed/store sequence whose first failure
is recorded as `{"stage": "pipeline", ...}` and raised as 503. -/
def pubsub_endpoint {V R : Type} (o : PushOracles V R) : PushOutcome :=
  match o.decode with
  | .error e => .httpError 400 [⟨"decode", e⟩]
  | .ok _ =>
    match o.download with
    | .error e => .httpError 500 [⟨"download", e⟩]
    | .ok _ =>
      match o.chunkSvc with
      | .error e => .httpError 503 [⟨"pipeline", e⟩]
      | .ok chunks =>
        if chunks.isEmpty then
          .httpError 503 [⟨"pipeline", "Chunk service returned empty"⟩]
        else
          match o.embedSvc chunks with
          | .error e => .httpError 503 [⟨"pipeline", e⟩]
          | .ok embeddings =>
            if embeddings.isEmpty then
              .httpError 503 [⟨"pipeline", "No embeddings returned"⟩]
            else
              match o.storeSvc embeddings with
              | .error e => .httpError 503 [⟨"pipeline", e⟩]
              | .ok _ => .success true [] embeddings.length

/-- C1: if the chunk collaborator returns an empty chunk list, the
ingestion run ends `failed` (a stage failure, not a success with zero
items), the exception is raised at the chunk step, and neither the embed
step nor the store step is ever invoked. -/
theorem empty_chunk_list_fails_at_chunk {V R : Type} (o : Oracles V R)
    (h : o.chunkSvc = .ok []) :
    runStatus (process_file_job o) = some .failed
    ∧ (process_file_job o).failedStep = some .chunk
    ∧ Step.embed ∉ (process_file_job o).invoked
    ∧ Step.store ∉ (process_file_job o).invoked := by
  have hrun : process_file_job o
      = failedRun R [.chunk] .chunk "Chunk service returned empty" := by
    simp [process_file_job, h]
  rw [hrun]
  exact ⟨rfl, rfl, by show Step.embed ∉ [Step.chunk]; decide,
    by show Step.store ∉ [Step.chunk]; decide⟩

/-- Witness for C1: a collaborator stub returning an empty chunk list. -/
theorem empty_chunk_list_fails_at_chunk_witness :
    runStatus (process_file_job (⟨.ok [], fun _ => .ok [()], fun _ => .ok ()⟩ :
        Oracles Unit Unit)) = some .failed
    ∧ (process_file_job (⟨.ok [], fun _ => .ok [()], fun _ => .ok ()⟩ :
        Oracles Unit Unit)).failedStep = some .chunk
    ∧ Step.embed ∉ (process_file_job (⟨.ok [], fun _ => .ok [()], fun _ => .ok ()⟩ :
        Oracles Unit Unit)).invoked
    ∧ Step.store ∉ (process_file_job (⟨.ok [], fun _ => .ok [()], fun _ => .ok ()⟩ :
        Oracles Unit Unit)).invoked :=
  empty_chunk_list_fails_at_chunk _ rfl

/-- C2 counterexample: a run whose chunk stage fails records its single
error entry with stage label `"process"` — a label that does not name the
failing stage and is not drawn from the enumeration
download/chunk/embed/vector_search/generate/store (lines 178–180 tag every
fatal failure of the background job path with the fixed string
`"process"`). -/
theorem stage_error_label_counterexample :
    runStatus (process_file_job (⟨.error "boom", fun _ => .ok [()], fun _ => .ok ()⟩ :
        Oracles Unit Unit)) = some .failed
    ∧ terminalErrors (process_file_job (⟨.error "boom", fun _ => .ok [()], fun _ => .ok ()⟩ :
        Oracles Unit Unit)) = [⟨"process", "boom"⟩]
    ∧ "process" ∉ ["download", "chunk", "embed", "vector_search", "generate", "store"] :=
  ⟨rfl, rfl, by decide⟩

/-- C2 amended: every fatal stage failure is recorded as exactly one error
entry, but its stage label is a coarse fixed tag rather than a name from
the enumeration download/chunk/embed/vector_search/generate/store: the
background job path labels every fatal failure `"process"`, and the push
endpoint labels every pipeline-stage (chunk/embed/store) failure
`"pipeline"` (with `"decode"`/`"download"` for its pre-pipeline failures). -/
theorem fatal_failure_one_coarse_stage_error {V R : Type}
    (o : Oracles V R) (po : PushOracles V R) :
    (runStatus (process_file_job o) = some .failed →
      ∃ c, terminalErrors (process_file_job o) = [⟨"process", c⟩])
    ∧ (∀ es, pubsub_endpoint po = .httpError 503 es →
      ∃ c, es = [⟨"pipeline", c⟩]) := by
  constructor
  · intro hfail
    cases hc : o.chunkSvc with
    | error e => exact ⟨e, by simp [process_file_job, hc, failedRun, terminalErrors]⟩
    | ok chunks =>
      by_cases hce : chunks.isEmpty
      · exact ⟨"Chunk service returned empty",
          by simp [process_file_job, hc, hce, failedRun, terminalErrors]⟩
      · cases he : o.embedSvc chunks with
        | error e =>
          exact ⟨e, by simp [process_file_job, hc, hce, he, failedRun, terminalErrors]⟩
        | ok embs =>
          by_cases hee : embs.isEmpty
          · exact ⟨"No embeddings returned",
              by simp [process_file_job, hc, hce, he, hee, failedRun, terminalErrors]⟩
          · cases hs : o.storeSvc embs with
            | error e =>
              exact ⟨e, by simp [process_file_job, hc, hce, he, hee, hs, failedRun, terminalErrors]⟩
            | ok r =>
              exfalso
              have : runStatus (process_file_job o) = some .done := by
                simp [process_file_job, hc, hce, he, hee, hs, runStatus]
              rw [this] at hfail
              exact Status.noConfusion (Option.some.inj hfail)
  · intro es hes
    cases hd : po.decode with
    | error e => simp [pubsub_endpoint, hd] at hes
    | ok bn =>
      cases hw : po.download with
      | error e => simp [pubsub_endpoint, hd, hw] at hes
      | ok _ =>
        cases hc : po.chunkSvc with
        | error e =>
          refine ⟨e, ?_⟩
          simp [pubsub_endpoint, hd, hw, hc] at hes
          exact hes.symm
        | ok chunks =>
          by_cases hce : chunks.isEmpty
          · refine ⟨"Chunk service returned empty", ?_⟩
            simp [pubsub_endpoint, hd, hw, hc, hce] at hes
            exact hes.symm
          · cases he : po.embedSvc chunks with
            | error e =>
              refine ⟨e, ?_⟩
              simp [pubsub_endpoint, hd, hw, hc, hce, he] at hes
              exact hes.symm
            | ok embs =>
              by_cases hee : embs.isEmpty
              · refine ⟨"No embeddings returned", ?_⟩
                simp [pubsub_endpoint, hd, hw, hc, hce, he, hee] at hes
                exact hes.symm
              · cases hs : po.storeSvc embs with
                | error e =>
                  refine ⟨e, ?_⟩
                  simp [pubsub_endpoint, hd, hw, hc, hce, he, hee, hs] at hes
                  exact hes.symm
                | ok r =>
                  simp [pubsub_endpoint, hd, hw, hc, hce, he, hee, hs] at hes

/-- Witness for the amended C2: an embed-stage failure in the background
job path and a store-stage failure in the push path. -/
theorem fatal_failure_one_coarse_stage_error_witness :
    (∃ c, terminalErrors (process_file_job (⟨.ok ["c1"], fun _ => .error "emb down",
        fun _ => .ok ()⟩ : Oracles Unit Unit)) = [⟨"process", c⟩])
    ∧ ∃ c, [(⟨"pipeline", "store down"⟩ : StageError)] = [⟨"pipeline", c⟩] := by
  constructor
  · exact (fatal_failure_one_coarse_stage_error
      (⟨.ok ["c1"], fun _ => .error "emb down", fun _ => .ok ()⟩ : Oracles Unit Unit)
      (⟨.ok ("b", "n"), .ok (), .ok ["c1"], fun _ => .ok [()],
        fun _ => .error "store down"⟩ : PushOracles Unit Unit)).1 rfl
  · exact (fatal_failure_one_coarse_stage_error
      (⟨.ok ["c1"], fun _ => .error "emb down", fun _ => .ok ()⟩ : Oracles Unit Unit)
      (⟨.ok ("b", "n"), .ok (), .ok ["c1"], fun _ => .ok [()],
        fun _ => .error "store down"⟩ : PushOracles Unit Unit)).2 _ rfl

/-- C5: the statuses stored for one accepted job follow
Accepted → Running → (Done | Failed): the stored trace is exactly one of
those two sequences, every adjacent transition is one the state machine
allows, exactly one terminal status is ever stored, and the terminal
status is the final write (nothing changes afterwards). -/
theorem job_status_trace_monotonic {V R : Type} (o : Oracles V R) :
    (jobStatusTrace o = [.accepted, .running, .done]
      ∨ jobStatusTrace o = [.accepted, .running, .failed])
    ∧ List.Chain' (fun a b => allowedTransition a b = true) (jobStatusTrace o)
    ∧ (jobStatusTrace o).countP isTerminal = 1
    ∧ ∃ s, (jobStatusTrace o).getLast? = some s ∧ isTerminal s = true := by
  have htr : jobStatusTrace o = [.accepted, .running, .done]
      ∨ jobStatusTrace o = [.accepted, .running, .failed] := by
    unfold jobStatusTrace
    cases hc : o.chunkSvc with
    | error e => right; simp [process_file_job, hc, failedRun]
    | ok chunks =>
      by_cases hce : chunks.isEmpty
      · right; simp [process_file_job, hc, hce, failedRun]
      · cases he : o.embedSvc chunks with
        | error e => right; simp [process_file_job, hc, hce, he, failedRun]
        | ok embs =>
          by_cases hee : embs.isEmpty
          · right; simp [process_file_job, hc, hce, he, hee, failedRun]
          · cases hs : o.storeSvc embs with
            | error e => right; simp [process_file_job, hc, hce, he, hee, hs, failedRun]
            | ok r => left; simp [process_file_job, hc, hce, he, hee, hs]
  refine ⟨htr, ?_, ?_, ?_⟩
  · rcases htr with h | h <;> rw [h] <;>
      exact List.chain'_cons.2 ⟨rfl, List.chain'_cons.2 ⟨rfl, List.chain'_singleton _⟩⟩
  · rcases htr with h | h <;> rw [h] <;> decide
  · rcases htr with h | h <;> rw [h]
    · exact ⟨.done, rfl, rfl⟩
    · exact ⟨.failed, rfl, rfl⟩

/-- Per-message oracles of the pull-subscription worker callback
`pull_callback` (lines 284–349).  `decode` is the outcome of
`json.loads(base64.b64decode(message.data))`. -/
structure PullOracles (V R : Type) where
  decode : Except String JVal
  download : Except String Unit
  chunkSvc : Except String (List String)
  embedSvc : List String → Except String (List V)
  storeSvc : List V → Except String R

/-- `pull_callback` (lines 284–349): returns whether the message was
acknowledged (`true` = ack, `false` = nack) and which pipeline steps were
invoked.  A decode failure nacks immediately; a payload that is not a
JSON object makes `payload.get("bucket")` raise, which the outer `except`
converts to a nack; missing/falsy `bucket` or `name` nacks; then each
stage failure (or an empty chunk/embedding list) nacks, and only a fully
successful run acks. -/
def pull_callback {V R : Type} (o : PullOracles V R) : Bool × List Step :=
  match o.decode with
  | .error _ => (false, [])
  | .ok payload =>
    match payload with
    | .obj kvs =>
      let bucket := jgetD (.obj kvs) "bucket"
      let name := jgetD (.obj kvs) "name"
      if !pyTruthy bucket || !pyTruthy name then (false, [])
      else
        match o.download with
        | .error _ => (false, [.download])
        | .ok _ =>
          match o.chunkSvc with
          | .error _ => (false, [.download, .chunk])
          | .ok chunks =>
            if chunks.isEmpty then (false, [.download, .chunk])
            else
              match o.embedSvc chunks with
              | .error _ => (false, [.download, .chunk, .embed])
              | .ok embeddings =>
                if embeddings.isEmpty then (false, [.download, .chunk, .embed])
                else
                  match o.storeSvc embeddings with
                  | .error _ => (false, [.download, .chunk, .embed, .store])
                  | .ok _ => (true, [.download, .chunk, .embed, .store])
    | _ => (false, [])

/-- C7: a message whose payload fails to decode is negative-acknowledged
immediately, and no stage of the ingestion pipeline (download, chunk,
embed, store) is invoked for it. -/
theorem decode_failure_nacks_without_pipeline {V R : Type}
    (o : PullOracles V R) (e : String) (h : o.decode = .error e) :
    pull_callback o = (false, []) := by
  simp [pull_callback, h]

/-- Witness for C7: a message whose payload is not valid base64/JSON. -/
theorem decode_failure_nacks_without_pipeline_witness :
    pull_callback (⟨.error "Invalid base64", .ok (), .ok ["c"],
        fun _ => .ok [()], fun _ => .ok ()⟩ : PullOracles Unit Unit)
      = (false, []) :=
  decode_failure_nacks_without_pipeline _ "Invalid base64" rfl

/-- One record of the in-memory `job_store`. -/
structure JobRecord where
  status : Status
  localPath : Option String
deriving DecidableEq

/-- `job_store[job_id] = record`: dict assignment, last write wins. -/
def job_store_put (store : List (String × JobRecord)) (id : String)
    (r : JobRecord) : List (String × JobRecord) :=
  (store.filter (fun kv => kv.1 ≠ id)) ++ [(id, r)]

/-- The request body of `/submit_text`: `payload.get("text", "")` and
`payload.get("filename", ...)`.  A `text` field holding a falsy non-string
value behaves like an absent field (both are rejected); a truthy
non-string `text` would fail later at `text.encode`, which no claim
touches, so `text` is carried as an optional string. -/
structure SubmitPayload where
  text : Option String
  filename : Option String

/-- Response of `/submit_text`. -/
inductive SubmitOutcome where
  | httpError (status : Nat)
  | accepted (job_id : String)
deriving DecidableEq

/-- `submit_text` (lines 234–251): reject an empty/absent `text` with 400
before the job id is generated; then generate the id (`uuid4`, modelled by
the fresh value `newId`; the default filename draws a separate fresh
`uuid4` prefix, modelled by `freshName`), write the text to a temp file
(500 on failure, modelled by `fileWriteOk`), record the job as `accepted`
and schedule the background run.  Returns the response, the updated job
store, and whether the run reached the id-generation line. -/
def submit_text (p : SubmitPayload) (store : List (String × JobRecord))
    (newId freshName : String) (fileWriteOk : Bool) :
    SubmitOutcome × List (String × JobRecord) × Bool :=
  let text := p.text.getD ""
  if text = "" then (.httpError 400, store, false)
  else
    let job_id := newId
    let filename := p.filename.getD ("doc_" ++ freshName ++ ".txt")
    let local_path := "/tmp/" ++ job_id ++ "_" ++ (filename.replace "/" "_")
    if fileWriteOk then
      (.accepted job_id, job_store_put store job_id ⟨.accepted, some local_path⟩, true)
    else
      (.httpError 500, store, true)

/-- C10: a `/submit_text` request with no non-empty `text` field is
rejected with HTTP 400 before the job id is generated, and the job store
is left unchanged — no job record is created. -/
theorem empty_text_rejected_before_job_creation
    (p : SubmitPayload) (store : List (String × JobRecord))
    (newId freshName : String) (fileWriteOk : Bool)
    (h : p.text.getD "" = "") :
    submit_text p store newId freshName fileWriteOk
      = (.httpError 400, store, false) := by
  simp [submit_text, h]

/-- Witness for C10: a request carrying only a filename. -/
theorem empty_text_rejected_before_job_creation_witness :
    submit_text ⟨none, some "a.txt"⟩ [] "id-1" "f8a2" true
      = (.httpError 400, [], false) :=
  empty_text_rejected_before_job_creation ⟨none, some "a.txt"⟩ [] "id-1" "f8a2" true rfl

end Admin


/-! ## Cache-key derivation (User_Backend/main.py lines 73–80)

`normalize_text` applies `unicodedata.normalize("NFC", s)` followed by
`str.strip()`; `sha256_key` prefixes `"q:"` to the SHA-256 hex digest of
the normalized question.  Strings are handled as their codepoint lists;
the NFC transformation and the SHA-256 hex digest are Python-library
externals and are passed as explicit function parameters (`nfc`, `hash`).
On pure-ASCII inputs NFC is the identity. -/

namespace CacheKey

/-- The codepoints Python's no-argument `str.strip()` removes
(`str.isspace` whitespace). -/
def pyWhitespace : List Char :=
  [' ', '\t', '\n', '\x0b', '\x0c', '\x0d',
   '\u001c', '\u001d', '\u001e', '\u001f', '\u0085', '\u00a0',
   '\u1680', '\u2000', '\u2001', '\u2002', '\u2003', '\u2004',
   '\u2005', '\u2006', '\u2007', '\u2008', '\u2009', '\u200a',
   '\u2028', '\u2029', '\u202f', '\u205f', '\u3000']

/-- Is the codepoint Python whitespace? -/
def pyIsSpace (c : Char) : Bool :=
  pyWhitespace.contains c

/-- Python `s.strip()`: remove leading and trailing whitespace. -/
def pyStrip (l : List Char) : List Char :=
  ((l.dropWhile pyIsSpace).reverse.dropWhile pyIsSpace).reverse

/-- `normalize_text(s)` (lines 73–76): NFC-normalize, then strip.
There is no case folding. -/
def normalize_text (nfc : List Char → List Char) (s : List Char) : List Char :=
  pyStrip (nfc s)

/-- `sha256_key(q)` (lines 79–80): `"q:" + sha256(q.encode()).hexdigest()`. -/
def sha256_key (hash : List Char → List Char) (q : List Char) : List Char :=
  'q' :: ':' :: hash q

/-- The cache key the `/ask` endpoint derives for a question
(line 390: `cache_key = sha256_key(q)` with `q = normalize_text(...)`). -/
def cache_key_of (nfc hash : List Char → List Char) (question : List Char) :
    List Char :=
  sha256_key hash (normalize_text nfc question)

theorem dropWhile_append_of_forall {p : Char → Bool} {w : List Char}
    (hw : ∀ c ∈ w, p c = true) (t : List Char) :
    List.dropWhile p (w ++ t) = List.dropWhile p t := by
  induction w with
  | nil => rfl
  | cons c cs ih =>
    have hc : p c = true := hw c (by simp)
    simp only [List.cons_append, List.dropWhile_cons, hc, if_true]
    exact ih (fun d hd => hw d (by simp [hd]))

theorem dropWhile_append_of_ne_nil {p : Char → Bool} {t : List Char}
    (ht : List.dropWhile p t ≠ []) (w : List Char) :
    List.dropWhile p (t ++ w) = List.dropWhile p t ++ w := by
  induction t with
  | nil => simp [List.dropWhile] at ht
  | cons c cs ih =>
    by_cases hc : p c = true
    · simp only [List.dropWhile_cons, hc, if_true] at ht ⊢
      simp only [List.cons_append, List.dropWhile_cons, hc, if_true]
      exact ih ht
    · simp only [List.cons_append, List.dropWhile_cons, hc]
      simp

theorem pyStrip_surround {w1 w2 s : List Char}
    (h1 : ∀ c ∈ w1, pyIsSpace c = true) (h2 : ∀ c ∈ w2, pyIsSpace c = true) :
    pyStrip (w1 ++ s ++ w2) = pyStrip s := by
  unfold pyStrip
  rw [List.append_assoc, dropWhile_append_of_forall h1]
  by_cases hs : List.dropWhile pyIsSpace s = []
  · have hall : ∀ c ∈ s ++ w2, pyIsSpace c = true := by
      intro c hc
      rcases List.mem_append.1 hc with h | h
      · exact (List.dropWhile_eq_nil_iff.1 hs) c h
      · exact h2 c h
    rw [List.dropWhile_eq_nil_iff.2 hall, hs]
  · rw [dropWhile_append_of_ne_nil hs w2, List.reverse_append,
      dropWhile_append_of_forall (fun c hc => h2 c (List.mem_reverse.1 hc))]

/-- Deterministic derivation: the key is a function of the question. -/
theorem cache_key_deterministic (nfc hash : List Char → List Char)
    (a b : List Char) (h : a = b) :
    cache_key_of nfc hash a = cache_key_of nfc hash b := by
  rw [h]

/-- C6 counterexample: the derivation is **not** case-normalized.  On the
pure-ASCII questions `"A"` and `"a"`, NFC is the identity, and the
normalized texts from which the keys are content-addressed differ — so
under the (collision-resistant) SHA-256 digest the derived keys differ;
with the digest instantiated to any injective-on-these-inputs function
(here: the identity) the keys are distinct. -/
theorem cache_key_not_case_normalized_counterexample :
    normalize_text id ['A'] ≠ normalize_text id ['a']
    ∧ normalize_text id ['A'] = ['A']
    ∧ normalize_text id ['a'] = ['a']
    ∧ cache_key_of id id ['A'] ≠ cache_key_of id id ['a'] := by
  refine ⟨by decide, by decide, by decide, by decide⟩

/-- C6 amended: the cache key is derived deterministically from the
normalized question text — whitespace-trimmed and Unicode-NFC-normalized
(case is preserved), then content-addressed by SHA-256 — so two questions
that differ only in Unicode normalization form (equal NFC images), or only
in surrounding whitespace (whitespace that NFC leaves in place), derive
equal cache keys. -/
theorem cache_key_normalization_invariance (nfc hash : List Char → List Char) :
    (∀ a b, nfc a = nfc b →
      cache_key_of nfc hash a = cache_key_of nfc hash b)
    ∧ (∀ s w1 w2, (∀ c ∈ w1, pyIsSpace c = true) → (∀ c ∈ w2, pyIsSpace c = true) →
      nfc (w1 ++ s ++ w2) = w1 ++ nfc s ++ w2 →
      cache_key_of nfc hash (w1 ++ s ++ w2) = cache_key_of nfc hash s) := by
  constructor
  · intro a b h
    unfold cache_key_of sha256_key normalize_text
    rw [h]
  · intro s w1 w2 h1 h2 hsur
    unfold cache_key_of sha256_key normalize_text
    rw [hsur, pyStrip_surround h1 h2]

/-- Witness for the amended C6: `"  hi\t"` and `"hi"` derive the same key
(NFC is the identity on these ASCII strings, so the NFC-commutation
hypothesis holds by computation), and equal NFC images give equal keys. -/
theorem cache_key_normalization_invariance_witness :
    cache_key_of id id ([' ', ' '] ++ ['h', 'i'] ++ ['\t'])
      = cache_key_of id id ['h', 'i']
    ∧ cache_key_of id id ['h', 'i'] = cache_key_of id id ['h', 'i'] := by
  constructor
  · exact (cache_key_normalization_invariance id id).2 ['h', 'i']
      [' ', ' '] ['\t'] (by decide) (by decide) rfl
  · exact (cache_key_normalization_invariance id id).1 _ _ rfl

end CacheKey

/-! ## User_Backend query pipeline (User_Backend/main.py)

`parse_llm_response` (lines 328–359), context assembly (lines 438–466),
`call_llm` prompt construction (lines 265–268) and the `/ask` handler
(lines 381–487). -/

namespace UserQ

/-- `val if isinstance(val, str) else safe_json_dumps(val)`. -/
def strOrDumps (v : JVal) : String :=
  match v with
  | .str s => s
  | _ => pyJsonDumps v

/-- One iteration of the `for p in parts` loop of `parse_llm_response`
(lines 342–348): a string part is taken as is; a dict part with a `"text"`
key contributes `p["text"]` — when that value is not a string the later
`"\n".join(texts)` raises `TypeError` (modelled as `Except.error`); any
other part contributes `safe_json_dumps(p)`. -/
def partText : JVal → Except Unit String
  | .str s => .ok s
  | .obj kvs =>
    match jlookup kvs "text" with
    | some (.str t) => .ok t
    | some _ => .error ()
    | none => .ok (pyJsonDumps (.obj kvs))
  | p => .ok (pyJsonDumps p)

/-- The `texts` list collected over all parts, or the `join` failure. -/
def collectTexts : List JVal → Except Unit (List String)
  | [] => .ok []
  | p :: ps =>
    match partText p, collectTexts ps with
    | .ok t, .ok ts => .ok (t :: ts)
    | _, _ => .error ()

/-- The candidate-field fallback of `parse_llm_response` (lines 350–355):
the first of `"output"`, `"message"`, `"text"` **present** in the first
candidate (presence, not truthiness), else `safe_json_dumps(c0)`. -/
def candidateFields (c0 : JVal) : String :=
  match c0 with
  | .obj kvs =>
    match jlookup kvs "output" with
    | some v => strOrDumps v
    | none =>
      match jlookup kvs "message" with
      | some v => strOrDumps v
      | none =>
        match jlookup kvs "text" with
        | some v => strOrDumps v
        | none => pyJsonDumps (.obj kvs)
  | _ => pyJsonDumps c0

/-- `resp.get("candidates") or resp.get("predictions") or
resp.get("responses")` (line 334), with an absent key read as `None`. -/
def candidatesOf (resp : JVal) : JVal :=
  pyOrJ (jgetD resp "candidates") (pyOrJ (jgetD resp "predictions") (jgetD resp "responses"))

/-- `parse_llm_response` (lines 328–359).  A plain string is returned
verbatim; a dict is probed for a non-empty candidate list, then for
`content.parts`, then for candidate fields; every other value — and a dict
matching no known shape — is serialized with `str(resp)`; the only
possible exception (`"\n".join` on a non-string `p["text"]`) is caught and
answered with `safe_json_dumps(resp)`.  The function is a total Lean
function into `String`: it never fails. -/
def parse_llm_response (resp : JVal) : String :=
  match resp with
  | .str s => s
  | .obj kvs =>
    match candidatesOf (.obj kvs) with
    | .arr (c0 :: _) =>
      let content := match c0 with
        | .obj _ => jgetD c0 "content"
        | _ => .null
      match content with
      | .obj ckvs =>
        match jgetD (.obj ckvs) "parts" with
        | .arr (p :: ps) =>
          match collectTexts (p :: ps) with
          | .ok texts => String.intercalate "\n" texts
          | .error _ => pyJsonDumps (.obj kvs)
        | _ => candidateFields c0
      | _ => candidateFields c0
    | _ => pyStr (.obj kvs)
  | v => pyStr v

/-- Does the response match the known candidates shape (a dict whose
`candidates`/`predictions`/`responses` or-chain yields a non-empty
list)? -/
def hasCandidateList (resp : JVal) : Bool :=
  match resp with
  | .obj _ =>
    match candidatesOf resp with
    | .arr (_ :: _) => true
    | _ => false
  | _ => false

/-- C9: `parse_llm_response` is total — it is a plain Lean function into
`String`, so it returns a string on every input and never fails — a plain
string input is returned verbatim, and on any input matching no known
candidates/content/parts shape (any non-dict non-string value, or a dict
without a non-empty candidate list) it falls back to the `str(resp)`
serialization of the input rather than failing. -/
theorem parse_llm_response_total_fallback (v : JVal) :
    (∀ s, v = .str s → parse_llm_response v = s)
    ∧ (v.isStr = false → hasCandidateList v = false →
        parse_llm_response v = pyStr v) := by
  constructor
  · intro s h
    subst h
    rfl
  · intro hstr hcand
    match v with
    | .str s => simp [JVal.isStr] at hstr
    | .null => rfl
    | .bool b => rfl
    | .num n => rfl
    | .arr xs => rfl
    | .obj kvs =>
      cases hc : candidatesOf (.obj kvs) with
      | arr xs =>
        cases xs with
        | nil => simp [parse_llm_response, hc]
        | cons c0 rest =>
          exfalso
          simp [hasCandidateList, hc] at hcand
      | null => simp [parse_llm_response, hc]
      | bool b => simp [parse_llm_response, hc]
      | num n => simp [parse_llm_response, hc]
      | str s => simp [parse_llm_response, hc]
      | obj kvs2 => simp [parse_llm_response, hc]

/-- Witness for C9: the string input `"done"` and the shapeless inputs
`42` and `{"foo": null}`. -/
theorem parse_llm_response_total_fallback_witness :
    parse_llm_response (.str "done") = "done"
    ∧ (JVal.isStr (.num 42) = false ∧ hasCandidateList (.num 42) = false
        ∧ parse_llm_response (.num 42) = pyStr (.num 42))
    ∧ (JVal.isStr (.obj [("foo", .null)]) = false
        ∧ hasCandidateList (.obj [("foo", .null)]) = false
        ∧ parse_llm_response (.obj [("foo", .null)])
            = pyStr (.obj [("foo", .null)])) :=
  ⟨(parse_llm_response_total_fallback (.str "done")).1 "done" rfl,
   ⟨rfl, rfl, (parse_llm_response_total_fallback (.num 42)).2 rfl rfl⟩,
   ⟨rfl, rfl, (parse_llm_response_total_fallback (.obj [("foo", .null)])).2 rfl rfl⟩⟩

/-- An `errors` entry of the `/ask` handler, same shape as in the admin
backend. -/
abbrev StageError := Admin.StageError

/-- Neighbor extraction from a dict search response (lines 442–447): the
first of the listed keys with a truthy value, wrapped in a singleton when
not already a list; `[]` when none matches. -/
def neighborsFromKeys (sr : JVal) : List String → List JVal
  | [] => []
  | k :: ks =>
    let v := jgetD sr k
    if pyTruthy v then
      match v with
      | .arr xs => xs
      | _ => [v]
    else neighborsFromKeys sr ks

/-- The `neighbors` list of the context-assembly step (lines 441–449). -/
def pickNeighbors (sr : JVal) : List JVal :=
  match sr with
  | .obj _ =>
    neighborsFromKeys sr
      ["nearestNeighbors", "nearest_neighbors", "results", "matches", "neighbors"]
  | .arr xs => xs
  | _ => []

/-- The context extracted from one neighbor (lines 451–462): a dict
neighbor is probed for a `datapoint`/`payload`/`data`/`match` dict or
string, whose `text`/`content`/`data`/`displayName` field (or raw
serialization) is taken — possibly a non-string value, which Python
appends as-is; a non-dict neighbor contributes `str(n)`. -/
def contextOfNeighbor (n : JVal) : JVal :=
  match n with
  | .obj _ =>
    let dp := pyOrJ (jgetD n "datapoint")
      (pyOrJ (jgetD n "payload") (pyOrJ (jgetD n "data") (jgetD n "match")))
    match dp with
    | .obj _ =>
      pyOrJ (jgetD dp "text") (pyOrJ (jgetD dp "content")
        (pyOrJ (jgetD dp "data") (pyOrJ (jgetD dp "displayName")
          (.str (pyJsonDumps dp)))))
    | .str s => .str s
    | _ => .str (pyJsonDumps n)
  | _ => .str (pyStr n)

/-- The `contexts` list built from the search response (lines 438–466);
`none` is a failed search (`search_resp is None`), a falsy response is
skipped, and the loop body never raises on decoded JSON, so the
`parse_vector` error branch is unreachable. -/
def buildContexts : Option JVal → List JVal
  | none => []
  | some sr => if pyTruthy sr then (pickNeighbors sr).map contextOfNeighbor else []

/-- `"\n\n".join(contexts)` succeeds only when every context is a string. -/
def joinIfStrings : List JVal → Except Unit (List String)
  | [] => .ok []
  | v :: vs =>
    match v with
    | .str s => (joinIfStrings vs).map (fun ss => s :: ss)
    | _ => .error ()

/-- The `text_input` built by `call_llm` (lines 265–268): the bare prompt
when `contexts` is `None` or empty, otherwise the contexts joined by
blank lines before the question (`TypeError` when a context is not a
string). -/
def llm_text_input (prompt : String) (contexts : Option (List JVal)) :
    Except Unit String :=
  match contexts with
  | none => .ok prompt
  | some cs =>
    if cs.isEmpty then .ok prompt
    else
      match joinIfStrings cs with
      | .ok ss =>
        .ok ("Context:\n" ++ String.intercalate "\n\n" ss ++ "\n\nQuestion:\n" ++ prompt)
      | .error _ => .error ()

/-- The collaborators of one `/ask` request.  `redisInit` is whether the
module-level `redis_client` was initialized; `llm` receives the
`text_input` of the generation request and returns the decoded response
(a collected stream is a `.str`). -/
structure AskOracles (V : Type) where
  redisInit : Bool
  redisGet : String → Except String (Option String)
  chunkSvc : String → Except String (List String)
  embedSvc : List String → Except String (List V)
  vectorSvc : V → Except String JVal
  llm : String → Except String JVal
  redisSet : String → String → Except String Unit

/-- Response of `/ask`: a 400 for an empty question, an `HTTPException`
carrying the errors recorded before the raise, a cache hit
(`found = true`), or a full pipeline answer (`found = false`) with
`contexts_count` and the accumulated best-effort error list. -/
inductive AskOutcome where
  | badRequest
  | httpError (status : Nat) (errors : List StageError)
  | hit (question : String) (answer : JVal) (errors : List StageError)
  | success (question : String) (answer : String) (contextsCount : Nat)
      (errors : List StageError)

/-- Step 1 of `/ask` (lines 391–397): the cached value (`None` when the
client is missing) and the best-effort `redis_get` error entry. -/
def cacheStep {V : Type} (o : AskOracles V) (key : String) :
    Option String × List StageError :=
  if o.redisInit then
    match o.redisGet key with
    | .ok c => (c, [])
    | .error e => (none, [⟨"redis_get", e⟩])
  else (none, [])

/-- `normalize_text` on Lean strings (NFC as a parameter, then strip). -/
def normalize_textS (nfc : String → String) (s : String) : String :=
  String.mk (CacheKey.pyStrip (nfc s).data)

/-- `sha256_key` on Lean strings (hex digest as a parameter). -/
def sha256_keyS (hash : String → String) (q : String) : String :=
  "q:" ++ hash q

/-- Steps 2–7 of `/ask` (lines 406–487), entered after a cache miss:
chunk (fatal, 503; an empty chunk list is a failure), embed (fatal, 503;
an empty embedding list is a failure), vector search on the first
embedding (best-effort: its failure only records a `vector_search`
error), context assembly, the LLM call on the built `text_input` (fatal,
503), and the best-effort cache write.  The second component lists the
`(prompt, contexts-argument)` of each generation call made
(`contexts if contexts else None`). -/
def askCore {V : Type} (o : AskOracles V) (q key : String)
    (errs : List StageError) :
    AskOutcome × List (String × Option (List JVal)) :=
  match o.chunkSvc q with
  | .error e => (.httpError 503 (errs ++ [⟨"chunk", e⟩]), [])
  | .ok chunk_texts =>
    if chunk_texts.isEmpty then
      (.httpError 503 (errs ++ [⟨"chunk", "Chunk service returned empty"⟩]), [])
    else
      match o.embedSvc chunk_texts with
      | .error e => (.httpError 503 (errs ++ [⟨"embeddings", e⟩]), [])
      | .ok [] => (.httpError 503 (errs ++ [⟨"embeddings", "No embeddings returned"⟩]), [])
      | .ok (e0 :: _) =>
        let searchStep : Option JVal × List StageError :=
          match o.vectorSvc e0 with
          | .ok sr => (some sr, errs)
          | .error e => (none, errs ++ [⟨"vector_search", e⟩])
        let contexts := buildContexts searchStep.1
        let ctxArg := if contexts.isEmpty then none else some contexts
        match llm_text_input q ctxArg with
        | .error _ =>
          (.httpError 503 (searchStep.2 ++ [⟨"llm", "sequence item: expected str instance"⟩]),
           [(q, ctxArg)])
        | .ok text_input =>
          match o.llm text_input with
          | .error e => (.httpError 503 (searchStep.2 ++ [⟨"llm", e⟩]), [(q, ctxArg)])
          | .ok llm_resp =>
            let answer := parse_llm_response llm_resp
            let errs2 :=
              match o.redisSet key (pyJsonDumps (.str answer)) with
              | .ok _ => searchStep.2
              | .error e => searchStep.2 ++ [⟨"redis_set", e⟩]
            (.success q answer contexts.length errs2, [(q, ctxArg)])

/-- The `/ask` handler (lines 381–487): normalize the question (400 when
empty), derive the cache key, read the cache (best-effort), return a
truthy cached value as a hit (JSON-decoded when possible, raw otherwise),
and otherwise run the pipeline. -/
def ask {V : Type} (nfc : String → String) (hash : String → String)
    (jloads : String → Option JVal) (o : AskOracles V) (question : String) :
    AskOutcome × List (String × Option (List JVal)) :=
  let q := normalize_textS nfc question
  if q = "" then (.badRequest, [])
  else
    let key := sha256_keyS hash q
    match cacheStep o key with
    | (some c, errs) =>
      if c = "" then askCore o q key errs
      else
        match jloads c with
        | some parsed => (.hit q parsed errs, [])
        | none => (.hit q (.str c) errs, [])
    | (none, errs) => askCore o q key errs

theorem cacheStep_errs_shape {V : Type} (o : AskOracles V) (key : String) :
    (cacheStep o key).2 = [] ∨ ∃ e, (cacheStep o key).2 = [⟨"redis_get", e⟩] := by
  unfold cacheStep
  by_cases h : o.redisInit
  · simp only [h, if_true]
    cases hg : o.redisGet key with
    | ok c => left; rfl
    | error e => right; exact ⟨e, rfl⟩
  · simp only [h, if_false]
    left
    rfl

theorem askCore_vector_fail {V : Type} (o : AskOracles V) (q key : String)
    (errs : List StageError) (cs : List String) (v0 : V) (vs : List V)
    (e : String) (lresp : JVal)
    (hchunk : o.chunkSvc q = .ok cs) (hcs : cs.isEmpty = false)
    (hemb : o.embedSvc cs = .ok (v0 :: vs))
    (hvec : o.vectorSvc v0 = .error e)
    (hllm : o.llm q = .ok lresp) :
    askCore o q key errs
      = (.success q (parse_llm_response lresp) 0
          (match o.redisSet key (pyJsonDumps (.str (parse_llm_response lresp))) with
           | .ok _ => errs ++ [⟨"vector_search", e⟩]
           | .error e2 => errs ++ [⟨"vector_search", e⟩] ++ [⟨"redis_set", e2⟩]),
         [(q, none)]) := by
  simp only [askCore, hchunk, hcs, Bool.false_eq_true, if_false, hemb, hvec,
    buildContexts, List.isEmpty_nil, if_true, llm_text_input, hllm]
  cases hset : o.redisSet key (pyJsonDumps (.str (parse_llm_response lresp))) with
  | ok u => simp [hset]
  | error e2 => simp [hset]

/-- C4: for a query that reaches the vector-search stage and whose
vector-search call fails (while chunk, embed and the LLM succeed), the
pipeline still invokes the LLM — with an empty context list, so the
generation prompt is the bare question — and responds `found = false`
(a `success` outcome, never a `hit`) with `contexts_count = 0` and with
exactly one recorded StageError tagged `vector_search` carrying the
search failure. -/
theorem vector_search_best_effort {V : Type}
    (nfc hash : String → String) (jloads : String → Option JVal)
    (o : AskOracles V) (question q : String)
    (cs : List String) (v0 : V) (vs : List V) (e : String) (lresp : JVal)
    (hq : normalize_textS nfc question = q) (hqne : q ≠ "")
    (hmiss : (cacheStep o (sha256_keyS hash q)).1 = none
      ∨ (cacheStep o (sha256_keyS hash q)).1 = some "")
    (hchunk : o.chunkSvc q = .ok cs) (hcs : cs.isEmpty = false)
    (hemb : o.embedSvc cs = .ok (v0 :: vs))
    (hvec : o.vectorSvc v0 = .error e)
    (hllm : o.llm q = .ok lresp) :
    ∃ errs,
      ask nfc hash jloads o question
        = (.success q (parse_llm_response lresp) 0 errs, [(q, none)])
      ∧ errs.countP (fun se => se.stage == "vector_search") = 1
      ∧ (⟨"vector_search", e⟩ : StageError) ∈ errs := by
  have hask : ask nfc hash jloads o question
      = askCore o q (sha256_keyS hash q) (cacheStep o (sha256_keyS hash q)).2 := by
    unfold ask
    rw [hq]
    simp only [hqne, if_false]
    rcases hp : cacheStep o (sha256_keyS hash q) with ⟨copt, errs1⟩
    rw [hp] at hmiss
    rcases hmiss with hm | hm
    · have hc : copt = none := hm
      subst hc
      rfl
    · have hc : copt = some "" := hm
      subst hc
      rfl
  rw [hask, askCore_vector_fail o q (sha256_keyS hash q) _ cs v0 vs e lresp
    hchunk hcs hemb hvec hllm]
  have hshape := cacheStep_errs_shape o (sha256_keyS hash q)
  have hcount : ((cacheStep o (sha256_keyS hash q)).2).countP
      (fun se => se.stage == "vector_search") = 0 := by
    rcases hshape with h | ⟨e2, h⟩ <;> rw [h] <;> simp [List.countP_cons]
  cases hset : o.redisSet (sha256_keyS hash q)
      (pyJsonDumps (.str (parse_llm_response lresp))) with
  | ok u =>
    refine ⟨(cacheStep o (sha256_keyS hash q)).2 ++ [⟨"vector_search", e⟩], rfl, ?_, ?_⟩
    · simp [List.countP_append, hcount, List.countP_cons]
    · simp
  | error e2 =>
    refine ⟨(cacheStep o (sha256_keyS hash q)).2 ++ [⟨"vector_search", e⟩]
        ++ [⟨"redis_set", e2⟩], rfl, ?_, ?_⟩
    · simp [List.countP_append, hcount, List.countP_cons]
    · simp

/-- Witness for C4: a failing vector-search stub with succeeding chunk,
embed and LLM stubs and no cache client. -/
theorem vector_search_best_effort_witness :
    ∃ errs,
      ask id id (fun _ => none)
        (⟨false, fun _ => .ok none, fun _ => .ok ["c"], fun _ => .ok [()],
          fun _ => .error "vector down", fun _ => .ok (.str "ans"),
          fun _ _ => .ok ()⟩ : AskOracles Unit) "hi"
        = (.success "hi" (parse_llm_response (.str "ans")) 0 errs, [("hi", none)])
      ∧ errs.countP (fun se => se.stage == "vector_search") = 1
      ∧ (⟨"vector_search", "vector down"⟩ : StageError) ∈ errs :=
  vector_search_best_effort id id (fun _ => none) _ "hi" "hi" ["c"] () [] "vector down"
    (.str "ans") rfl (by decide) (Or.inl rfl) rfl rfl rfl rfl rfl

end UserQ

